import Mathlib

/-!
Verification development for the Azure IoT Hub device-client binding layer
(iothub_client_python.cpp) together with the in-repository mock of the
underlying C SDK entry points (iothub_client_mock.cpp).

The definitions below are shallow embeddings of the C++ wrapper functions
and of the mock implementations of the native functions they call.  Pure
data (result enums, the single-slot mock map, the mock message buffer) is
translated directly; the Python objects crossing the boundary are modelled
by an inductive type carrying exactly the distinctions the C API checks
used in the source can observe (callable check, None check, int check,
string check, extraction to a DeviceMethodReturnValue).
-/

namespace AzureIoT

/-- Result codes of the Map component (map.h), as mirrored by the
IoTHubMapResult enum registered in iothub_client_python.cpp. -/
inductive MAP_RESULT where
  | MAP_OK
  | MAP_ERROR
  | MAP_INVALIDARG
  | MAP_KEYEXISTS
  | MAP_KEYNOTFOUND
  | MAP_FILTER_REJECT
  deriving DecidableEq

/-- Result codes of the message component (IoTHubMessageResult). -/
inductive IOTHUB_MESSAGE_RESULT where
  | IOTHUB_MESSAGE_OK
  | IOTHUB_MESSAGE_INVALID_ARG
  | IOTHUB_MESSAGE_INVALID_TYPE
  | IOTHUB_MESSAGE_ERROR
  deriving DecidableEq

/-- Result codes of the client component (IoTHubClientResult). -/
inductive IOTHUB_CLIENT_RESULT where
  | IOTHUB_CLIENT_OK
  | IOTHUB_CLIENT_INVALID_ARG
  | IOTHUB_CLIENT_ERROR
  | IOTHUB_CLIENT_INVALID_SIZE
  | IOTHUB_CLIENT_INDEFINITE_TIME
  deriving DecidableEq

/-- Terminal results a driver reports for an asynchronous send
(IoTHubClientConfirmationResult). -/
inductive IOTHUB_CLIENT_CONFIRMATION_RESULT where
  | CONFIRMATION_OK
  | CONFIRMATION_BECAUSE_DESTROY
  | CONFIRMATION_MESSAGE_TIMEOUT
  | CONFIRMATION_ERROR
  deriving DecidableEq

/-- The device / module discriminator of the templated client
(CLIENT_INTERFACE_TYPE in iothub_client_python.cpp). -/
inductive CLIENT_INTERFACE_TYPE where
  | CLIENT_INTERFACE_DEVICE
  | CLIENT_INTERFACE_MODULE
  deriving DecidableEq

/-- A Python object as observed through the C API predicates the binding
layer uses: PyCallable_Check, comparison with Py_None, PyLong_Check,
string extraction, and extraction to the DeviceMethodReturnValue class.
Callables and otherwise-uninterpreted objects carry an identity. -/
inductive PyObj where
  | none
  | callable (id : Nat)
  | int (n : Int)
  | str (s : String)
  | dmrv (response : String) (status : Int)
  | other (id : Nat)
  deriving DecidableEq

/-- PyCallable_Check from the CPython API, on the model of Python
objects. -/
def PyCallable_Check : PyObj → Bool
  | PyObj.callable _ => true
  | _ => false

/-- A Python exception as it crosses the binding boundary
(PyErr_SetString followed by throw_error_already_set, or an exception
raised inside a user callback). -/
structure PyError where
  message : String
  deriving DecidableEq

/-- Outcome of running a piece of binding code that may raise. -/
inductive Outcome (ε : Type) (α : Type) where
  | ok (a : α)
  | raised (e : ε)
  deriving DecidableEq

/-- Result of invoking a Python callable: a returned object, or a raised
Python exception. -/
def PyCall : Type := Outcome PyError PyObj

/-!  ## Map mock (iothub_client_mock.cpp)

The mock map stores a single key/value pair in the fixed buffers mockKey
and mockValue; the zeroed buffer is represented by the empty string.  The
optional filter is the C callback installed by Map_Create; it rejects an
insertion when it returns a nonzero int. -/

/-- State of the mock Map: the single mockKey / mockValue slot. -/
structure MockMapState where
  mockKey : String
  mockValue : String
  deriving DecidableEq

/-- Map_Create resets the mock buffers and returns the (unique) mock
handle; the state of a freshly created mock map. -/
def Map_Create_state : MockMapState :=
  { mockKey := "", mockValue := "" }

/-- State plus result code returned by a mutating mock map call. -/
structure MapOpResult where
  state : MockMapState
  result : MAP_RESULT
  deriving DecidableEq

/-- Map_Add from the mock: the filter (if installed) is consulted first
and a nonzero filter result rejects; then the insertion fails with
MAP_KEYEXISTS when the slot already holds the key, else the slot is
overwritten with the new pair. -/
def Map_Add (mockFilterFunc : Option (String → String → Int))
    (s : MockMapState) (key value : String) : MapOpResult :=
  let filtered : MAP_RESULT :=
    match mockFilterFunc with
    | Option.none => MAP_RESULT.MAP_OK
    | Option.some f => if f key value ≠ 0 then MAP_RESULT.MAP_FILTER_REJECT else MAP_RESULT.MAP_OK
  if filtered = MAP_RESULT.MAP_OK then
    if s.mockKey = key then
      { state := s, result := MAP_RESULT.MAP_KEYEXISTS }
    else
      { state := { mockKey := key, mockValue := value }, result := MAP_RESULT.MAP_OK }
  else
    { state := s, result := filtered }

/-- Map_AddOrUpdate from the mock: same filter check, then the slot is
overwritten unconditionally. -/
def Map_AddOrUpdate (mockFilterFunc : Option (String → String → Int))
    (s : MockMapState) (key value : String) : MapOpResult :=
  let filtered : MAP_RESULT :=
    match mockFilterFunc with
    | Option.none => MAP_RESULT.MAP_OK
    | Option.some f => if f key value ≠ 0 then MAP_RESULT.MAP_FILTER_REJECT else MAP_RESULT.MAP_OK
  if filtered = MAP_RESULT.MAP_OK then
    { state := { mockKey := key, mockValue := value }, result := MAP_RESULT.MAP_OK }
  else
    { state := s, result := filtered }

/-- Map_Delete from the mock: clears the slot when it holds the key,
otherwise MAP_KEYNOTFOUND. -/
def Map_Delete (s : MockMapState) (key : String) : MapOpResult :=
  if s.mockKey = key then
    { state := { mockKey := "", mockValue := "" }, result := MAP_RESULT.MAP_OK }
  else
    { state := s, result := MAP_RESULT.MAP_KEYNOTFOUND }

/-- Map_ContainsKey from the mock: always MAP_OK, with the out-parameter
keyExists set to whether the slot holds the key. -/
def Map_ContainsKey (s : MockMapState) (key : String) : MAP_RESULT × Bool :=
  (MAP_RESULT.MAP_OK, s.mockKey = key)

/-- The IoTHubMap.contains_key wrapper: throws only on a non-MAP_OK
result (which the mock never produces) and returns the out-parameter. -/
def IoTHubMap_ContainsKey (s : MockMapState) (key : String) : Bool :=
  (Map_ContainsKey s key).2

/-- One Python-level map operation of the kinds claim C6 ranges over. -/
inductive MapOp where
  | add (key value : String)
  | addOrUpdate (key value : String)
  | del (key : String)
  deriving DecidableEq

/-- Run one operation on the mock map with no filter attached, keeping
only the state (the IoTHubMap wrapper surfaces non-OK results as
exceptions but the map state is as left by the mock either way). -/
def runMapOp (s : MockMapState) : MapOp → MockMapState
  | MapOp.add key value => (Map_Add Option.none s key value).state
  | MapOp.addOrUpdate key value => (Map_AddOrUpdate Option.none s key value).state
  | MapOp.del key => (Map_Delete s key).state

/-- Run a sequence of operations on a freshly created mock map. -/
def runMapOps (ops : List MapOp) : MockMapState :=
  ops.foldl runMapOp Map_Create_state

/-- The key held by the single mock slot after a sequence of operations,
computed directly from the sequence: any add or add_or_update leaves the
slot holding its key (add of the held key fails but the slot then already
holds that key), and delete of the held key empties the slot. -/
def netSlotKeyFrom (k : String) : List MapOp → String
  | [] => k
  | MapOp.add key _ :: rest => netSlotKeyFrom key rest
  | MapOp.addOrUpdate key _ :: rest => netSlotKeyFrom key rest
  | MapOp.del key :: rest => netSlotKeyFrom (if k = key then "" else k) rest

/-- Modelled from the spec words of claim C6 only (for comparison with
the mock): the net effect of a sequence of operations on an ordinary
map with unique keys, as an association list. -/
def specMapApply (m : List (String × String)) : MapOp → List (String × String)
  | MapOp.add k v => if (m.lookup k).isSome then m else (k, v) :: m
  | MapOp.addOrUpdate k v => (k, v) :: m.filter (fun p => !(p.1 == k))
  | MapOp.del k => m.filter (fun p => !(p.1 == k))

/-- Modelled from the spec words of claim C6 only: whether the net effect
of the sequence leaves key k present in an ordinary map. -/
def specContainsKey (ops : List MapOp) (k : String) : Bool :=
  ((ops.foldl specMapApply []).lookup k).isSome

/-!  ## Message mock (iothub_client_mock.cpp)

The mock message stores its body in the 128-byte buffer mockBuffer
(bytes modelled as naturals) together with the flag mockString that tags
the body kind. -/

/-- MOCKMESSAGESIZE from the mock source. -/
def MOCKMESSAGESIZE : Nat := 128

/-- State of the mock message: the buffer contents actually stored
(after any truncation to MOCKMESSAGESIZE) and the body-kind tag. -/
structure MockMessageState where
  mockBuffer : List Nat
  mockString : Bool
  deriving DecidableEq

/-- IoTHubMessage_CreateFromByteArray from the mock: copies
min(size, MOCKMESSAGESIZE) bytes into the buffer and tags the body as a
byte array. -/
def IoTHubMessage_CreateFromByteArray (byteArray : List Nat) : MockMessageState :=
  { mockBuffer := byteArray.take MOCKMESSAGESIZE, mockString := false }

/-- IoTHubMessage_CreateFromString from the mock: strncpy of at most
MOCKMESSAGESIZE chars (represented as byte values) and the string tag. -/
def IoTHubMessage_CreateFromString (source : List Nat) : MockMessageState :=
  { mockBuffer := source.take MOCKMESSAGESIZE, mockString := true }

/-- IoTHubMessage_GetByteArray from the mock: IOTHUB_MESSAGE_INVALID_TYPE
on a string-bodied message, else the buffer and its size with
IOTHUB_MESSAGE_OK. -/
def IoTHubMessage_GetByteArray (s : MockMessageState) :
    Outcome IOTHUB_MESSAGE_RESULT (List Nat) :=
  if s.mockString then
    Outcome.raised IOTHUB_MESSAGE_RESULT.IOTHUB_MESSAGE_INVALID_TYPE
  else
    Outcome.ok s.mockBuffer

/-- IoTHubMessage_GetString from the mock: NULL (modelled as none) on a
byte-bodied message, else the buffer as a string. -/
def IoTHubMessage_GetString (s : MockMessageState) : Option (List Nat) :=
  if s.mockString = false then Option.none else Option.some s.mockBuffer

/-- The IoTHubMessageError exception thrown by the wrapper, carrying the
message result code. -/
structure IoTHubMessageError where
  result : IOTHUB_MESSAGE_RESULT
  deriving DecidableEq

/-- IoTHubMessage::GetBytearray from iothub_client_python.cpp: builds a
Python bytearray from the returned buffer on IOTHUB_MESSAGE_OK and
throws IoTHubMessageError with the result code otherwise. -/
def IoTHubMessage_GetBytearray_py (s : MockMessageState) :
    Outcome IoTHubMessageError (List Nat) :=
  match IoTHubMessage_GetByteArray s with
  | Outcome.ok buffer => Outcome.ok buffer
  | Outcome.raised result => Outcome.raised { result := result }

/-- IoTHubMessage::GetString from iothub_client_python.cpp: returns the
raw (possibly NULL) char pointer from the native call, never throwing. -/
def IoTHubMessage_GetString_py (s : MockMessageState) :
    Outcome IoTHubMessageError (Option (List Nat)) :=
  Outcome.ok (IoTHubMessage_GetString s)

/-!  ## IoTHubMap wrapper objects (iothub_client_python.cpp)

For the claims about the C++ IoTHubMap class itself (filter registration
and ownership) we model the object state the class carries: the filter
flag, the ownHandle flag and the (possibly already cleared) map handle,
plus for filter behaviour whether Map_Create was handed the
MapFilterCallback trampoline. -/

/-- The fields of a C++ IoTHubMap object relevant to ownership and
filter registration. -/
structure IoTHubMapObj where
  filter : Bool
  ownHandle : Bool
  mapHandle : Option Nat
  filterAttached : Bool
  deriving DecidableEq

/-- The global mapFilterCallback boost python object; a default
constructed boost python object is None. -/
def mapFilterCallback_initial : PyObj := PyObj.none

/-- The IoTHubMap(filter) constructor (iothub_client_python.cpp):
a non-callable argument is a TypeError; with a callable argument, if the
global mapFilterCallback is already callable the constructor raises
TypeError without touching it; otherwise it installs the argument as the
global filter and creates the map with the trampoline attached.  Returns
the new global together with the outcome. -/
def IoTHubMap_ctor_filter (mapFilterCallback : PyObj) (arg : PyObj) :
    PyObj × Outcome PyError IoTHubMapObj :=
  if PyCallable_Check arg then
    if PyCallable_Check mapFilterCallback then
      (mapFilterCallback, Outcome.raised { message := "Filter already in use" })
    else
      (arg, Outcome.ok
        { filter := true, ownHandle := true, mapHandle := Option.some 0,
          filterAttached := true })
  else
    (mapFilterCallback, Outcome.raised { message := "expected type callable" })

/-- The static IoTHubMap::Create factory (iothub_client_python.cpp):
with a callable argument it assigns the global mapFilterCallback
unconditionally and creates the map with the trampoline attached; a
non-callable non-None argument is a TypeError; None creates a filterless
map.  Returns the new global together with the outcome. -/
def IoTHubMap_Create (mapFilterCallback : PyObj) (arg : PyObj) :
    PyObj × Outcome PyError IoTHubMapObj :=
  if PyCallable_Check arg then
    (arg, Outcome.ok
      { filter := false, ownHandle := true, mapHandle := Option.some 0,
        filterAttached := true })
  else if arg ≠ PyObj.none then
    (mapFilterCallback, Outcome.raised { message := "Create expected type callable or None" })
  else
    (mapFilterCallback, Outcome.ok
      { filter := false, ownHandle := true, mapHandle := Option.some 0,
        filterAttached := false })

/-- Outcome of IoTHubMap::Destroy: the updated object and whether the
native Map_Destroy was invoked. -/
structure MapDestroyOutcome where
  obj : IoTHubMapObj
  calledMapDestroy : Bool
  deriving DecidableEq

/-- IoTHubMap::Destroy from iothub_client_python.cpp: when the handle is
still set, Map_Destroy is called only if the object owns the handle, and
the handle is cleared either way. -/
def IoTHubMap_Destroy (m : IoTHubMapObj) : MapDestroyOutcome :=
  match m.mapHandle with
  | Option.some _ =>
      { obj := { m with mapHandle := Option.none }, calledMapDestroy := m.ownHandle }
  | Option.none =>
      { obj := m, calledMapDestroy := false }

/-- The IoTHubMap destructor: calls Destroy (and additionally clears the
global filter when this object registered one, which does not touch the
map storage). -/
def IoTHubMap_dtor (m : IoTHubMapObj) : MapDestroyOutcome :=
  IoTHubMap_Destroy m

/-- IoTHubMessage::Properties from iothub_client_python.cpp: wraps the
message property handle in an IoTHubMap constructed with
ownHandle = false (a non-owning view). -/
def IoTHubMessage_Properties_view (propertiesHandle : Nat) : IoTHubMapObj :=
  { filter := false, ownHandle := false, mapHandle := Option.some propertiesHandle,
    filterAttached := false }

/-!  ## Callback trampolines (iothub_client_python.cpp)

Each extern C trampoline acquires the interpreter lock, invokes the
registered Python callable inside a try block that catches
error_already_set and prints the traceback, and then produces a value
for the driver.  What happens after the catch differs between the
trampolines and is modelled exactly. -/

/-- boost python extract of an int from an object: succeeds on a Python
int, raises otherwise (in particular on None). -/
def extract_int : PyObj → Outcome PyError Int
  | PyObj.int n => Outcome.ok n
  | _ => Outcome.raised { message := "extract int failed" }

/-- boost python extract of a DeviceMethodReturnValue from an object:
succeeds only on an instance of that class, raises otherwise. -/
def extract_DeviceMethodReturnValue : PyObj → Outcome PyError (String × Int)
  | PyObj.dmrv response status => Outcome.ok (response, status)
  | _ => Outcome.raised { message := "extract DeviceMethodReturnValue failed" }

/-- What a trampoline hands back across the extern C boundary: whether a
traceback was printed for a caught user exception, and either the value
returned to the driver or a C++ exception escaping into the driver. -/
structure BoundaryOutcome (α : Type) where
  printedTraceback : Bool
  returned : Outcome PyError α
  deriving DecidableEq

/-- MapFilterCallback from iothub_client_python.cpp: the user filter is
invoked under the try block; on a raised exception the traceback is
printed and returnObject is left as the default None; the final
extract of an int happens outside the try block, so on None it raises
again, this time escaping into the native caller. -/
def MapFilterCallback (mapFilterCallback : String → String → PyCall)
    (mapProperty mapValue : String) : BoundaryOutcome Int :=
  match mapFilterCallback mapProperty mapValue with
  | Outcome.ok returnObject =>
      { printedTraceback := false, returned := extract_int returnObject }
  | Outcome.raised _ =>
      { printedTraceback := true, returned := extract_int PyObj.none }

/-- What SendConfirmationCallback does, observably: the single call made
to the registered Python callback (echoed message object, confirmation
result, user context) and the objects it frees afterwards. -/
structure ConfirmationOutcome where
  invocations : List (Nat × IOTHUB_CLIENT_CONFIRMATION_RESULT × PyObj)
  printedTraceback : Bool
  freedContext : Bool
  freedMessage : Option Nat
  deriving DecidableEq

/-- The SendContext allocated by SendEventAsync: the Python completion
callback, the user context, and the cloned message object. -/
structure SendContext where
  messageCallback : PyObj
  userContext : PyObj
  eventMessage : Nat
  deriving DecidableEq

/-- SendConfirmationCallback from iothub_client_python.cpp: invokes the
stored Python callback once with (cloned message, result, user context)
inside a try block whose catch prints any user exception, then deletes
the context and the cloned message.  Whether the user callback raised is
a parameter (it only affects the printed traceback). -/
def SendConfirmationCallback (result : IOTHUB_CLIENT_CONFIRMATION_RESULT)
    (sendContext : SendContext) (userCallbackRaises : Bool) : ConfirmationOutcome :=
  { invocations := [(sendContext.eventMessage, result, sendContext.userContext)],
    printedTraceback := userCallbackRaises,
    freedContext := true,
    freedMessage := Option.some sendContext.eventMessage }

/-- What DeviceMethodCallback hands back to the driver: the int status
(retVal), the response payload written through the out-parameters (none
when the code never writes them), and whether a traceback was printed. -/
structure DeviceMethodOutcome where
  retVal : Int
  response : Option String
  printedTraceback : Bool
  deriving DecidableEq

/-- DeviceMethodCallback from iothub_client_python.cpp: invokes the user
callback with (method name, payload, user context); extraction of the
DeviceMethodReturnValue and the writing of the response happen inside
the same try block, so a raised exception or a wrong-typed return leaves
retVal at its initial -1 and the response out-parameters untouched. -/
def DeviceMethodCallback (deviceMethodCallback : String → String → PyObj → PyCall)
    (method_name payload : String) (userContext : PyObj) : DeviceMethodOutcome :=
  match deviceMethodCallback method_name payload userContext with
  | Outcome.raised _ =>
      { retVal := -1, response := Option.none, printedTraceback := true }
  | Outcome.ok user_response_obj =>
      match extract_DeviceMethodReturnValue user_response_obj with
      | Outcome.raised _ =>
          { retVal := -1, response := Option.none, printedTraceback := true }
      | Outcome.ok (response, status) =>
          { retVal := status, response := Option.some response, printedTraceback := false }

/-- What InboundDeviceMethodCallback hands back: only the int status and
the traceback flag (the deferred variant carries no response
out-parameters). -/
structure InboundMethodOutcome where
  retVal : Int
  printedTraceback : Bool
  deriving DecidableEq

/-- InboundDeviceMethodCallback from iothub_client_python.cpp: invokes
the user callback with (method name, payload, method id, user context);
a raised exception or a wrong-typed return leaves retVal at -1. -/
def InboundDeviceMethodCallback
    (deviceMethodCallback : String → String → Nat → PyObj → PyCall)
    (method_name payload : String) (method_id : Nat) (userContext : PyObj) :
    InboundMethodOutcome :=
  match deviceMethodCallback method_name payload method_id userContext with
  | Outcome.raised _ =>
      { retVal := -1, printedTraceback := true }
  | Outcome.ok user_response_obj =>
      match extract_DeviceMethodReturnValue user_response_obj with
      | Outcome.raised _ => { retVal := -1, printedTraceback := true }
      | Outcome.ok (_, status) => { retVal := status, printedTraceback := false }

/-!  ## Client operations (IoTHubClient template, iothub_client_python.cpp)

Every operation releases the interpreter lock, calls the native entry
point, and (except for SetOption) throws IoTHubClientError carrying the
native result code when it is not IOTHUB_CLIENT_OK.  The native result
is a parameter of each embedded operation: it is whatever the underlying
call returned.  Where the claim is about this specific build, the mock
return value is used. -/

/-- The IoTHubClientError exception thrown by the wrapper, carrying the
client result code. -/
structure IoTHubClientError where
  result : IOTHUB_CLIENT_RESULT
  deriving DecidableEq

/-- An exception leaving a binding method: either a Python-level
TypeError set via PyErr_SetString, or an IoTHubClientError. -/
inductive BindingExc where
  | py (e : PyError)
  | client (e : IoTHubClientError)
  deriving DecidableEq

/-- The native call recorded by SendEventAsync: the client handle, the
message handle argument (literally eventMessage.Handle(), the caller's
message), the SendConfirmationCallback trampoline (implicit), and the
heap-allocated SendContext. -/
structure SendEventCall where
  clientHandleArg : Nat
  messageArg : Nat
  contextArg : SendContext
  deriving DecidableEq

/-- Everything observable about one IoTHubClient::SendEventAsync call:
the message-object id allocated for the clone (if reached), the native
call made (if reached), the exception raised toward Python (if any), and
the next fresh object id. -/
structure SendEventOutcome where
  nextId : Nat
  clonedMessage : Option Nat
  driverCall : Option SendEventCall
  raised : Option BindingExc
  deriving DecidableEq

/-- IoTHubClient::SendEventAsync from iothub_client_python.cpp.
Message wrapper objects are identified by allocation ids and nextId is
the next fresh id, so eventMessage.Clone() (a new IoTHubMessage) yields
id nextId.  A non-callable callback is a TypeError before anything else;
otherwise a SendContext is allocated holding the callback, the user
context and the clone, the native send is invoked with the ORIGINAL
message's handle and that context, and a non-OK native result is thrown
as IoTHubClientError. -/
def SendEventAsync (nextId : Nat) (clientHandle : Nat) (eventMessage : Nat)
    (messageCallback : PyObj) (userContext : PyObj)
    (driverResult : IOTHUB_CLIENT_RESULT) : SendEventOutcome :=
  if PyCallable_Check messageCallback then
    let clone : Nat := nextId
    let sendContext : SendContext :=
      { messageCallback := messageCallback, userContext := userContext,
        eventMessage := clone }
    { nextId := nextId + 1,
      clonedMessage := Option.some clone,
      driverCall := Option.some
        { clientHandleArg := clientHandle, messageArg := eventMessage,
          contextArg := sendContext },
      raised :=
        if driverResult = IOTHUB_CLIENT_RESULT.IOTHUB_CLIENT_OK then Option.none
        else Option.some (BindingExc.client { result := driverResult }) }
  else
    { nextId := nextId,
      clonedMessage := Option.none,
      driverCall := Option.none,
      raised := Option.some (BindingExc.py { message := "send_event_async expected type callable" }) }

/-- The send-status out-parameter values (IoTHubClientStatus). -/
inductive IOTHUB_CLIENT_STATUS where
  | IDLE
  | BUSY
  deriving DecidableEq

/-- IoTHubClient::GetSendStatus: returns the out-parameter on
IOTHUB_CLIENT_OK, else throws IoTHubClientError with the native result. -/
def GetSendStatus (driverStatus : IOTHUB_CLIENT_STATUS)
    (driverResult : IOTHUB_CLIENT_RESULT) :
    Outcome IoTHubClientError IOTHUB_CLIENT_STATUS :=
  if driverResult = IOTHUB_CLIENT_RESULT.IOTHUB_CLIENT_OK then Outcome.ok driverStatus
  else Outcome.raised { result := driverResult }

/-- IoTHubClient::SetRetryPolicy: void on IOTHUB_CLIENT_OK, else throws
IoTHubClientError with the native result. -/
def SetRetryPolicy (driverResult : IOTHUB_CLIENT_RESULT) :
    Outcome IoTHubClientError Unit :=
  if driverResult = IOTHUB_CLIENT_RESULT.IOTHUB_CLIENT_OK then Outcome.ok ()
  else Outcome.raised { result := driverResult }

/-- IoTHubClient::DeviceMethodResponse: void on IOTHUB_CLIENT_OK, else
throws IoTHubClientError with the native result. -/
def DeviceMethodResponse (driverResult : IOTHUB_CLIENT_RESULT) :
    Outcome IoTHubClientError Unit :=
  if driverResult = IOTHUB_CLIENT_RESULT.IOTHUB_CLIENT_OK then Outcome.ok ()
  else Outcome.raised { result := driverResult }

/-- How a SetOption call ends, as seen by the Python caller and on
stdout. -/
inductive SetOptionOutcome where
  | ok
  | raisedTypeError
  | raisedClientError (r : IOTHUB_CLIENT_RESULT)
  | loggedFailure (r : IOTHUB_CLIENT_RESULT)
  deriving DecidableEq

/-- IoTHubClient::SetOption from iothub_client_python.cpp (Python 3
branch): a Python int is passed as a 64-bit value and a string as a
C string; any other value type raises in the string extraction.  The
native result, when not IOTHUB_CLIENT_OK, is only printed: the method
returns normally without throwing. -/
def SetOption (option : PyObj) (driverResult : IOTHUB_CLIENT_RESULT) :
    SetOptionOutcome :=
  match option with
  | PyObj.int _ =>
      if driverResult = IOTHUB_CLIENT_RESULT.IOTHUB_CLIENT_OK then SetOptionOutcome.ok
      else SetOptionOutcome.loggedFailure driverResult
  | PyObj.str _ =>
      if driverResult = IOTHUB_CLIENT_RESULT.IOTHUB_CLIENT_OK then SetOptionOutcome.ok
      else SetOptionOutcome.loggedFailure driverResult
  | _ => SetOptionOutcome.raisedTypeError

/-- IoTHubDeviceClient_GetLastMessageReceiveTime from the mock: always
IOTHUB_CLIENT_INDEFINITE_TIME. -/
def IoTHubDeviceClient_GetLastMessageReceiveTime_mock : IOTHUB_CLIENT_RESULT :=
  IOTHUB_CLIENT_RESULT.IOTHUB_CLIENT_INDEFINITE_TIME

/-- IoTHubModuleClient_GetLastMessageReceiveTime from the mock: always
IOTHUB_CLIENT_INDEFINITE_TIME. -/
def IoTHubModuleClient_GetLastMessageReceiveTime_mock : IOTHUB_CLIENT_RESULT :=
  IOTHUB_CLIENT_RESULT.IOTHUB_CLIENT_INDEFINITE_TIME

/-- IoTHubClient::GetLastMessageReceiveTime in this build: dispatches on
the interface type to the mock native call and throws IoTHubClientError
with the native result when it is not IOTHUB_CLIENT_OK; the time
out-parameter (a Nat stand-in for time_t) is returned otherwise. -/
def GetLastMessageReceiveTime (t : CLIENT_INTERFACE_TYPE) :
    Outcome IoTHubClientError Nat :=
  let result : IOTHUB_CLIENT_RESULT :=
    match t with
    | CLIENT_INTERFACE_TYPE.CLIENT_INTERFACE_DEVICE =>
        IoTHubDeviceClient_GetLastMessageReceiveTime_mock
    | CLIENT_INTERFACE_TYPE.CLIENT_INTERFACE_MODULE =>
        IoTHubModuleClient_GetLastMessageReceiveTime_mock
  if result = IOTHUB_CLIENT_RESULT.IOTHUB_CLIENT_OK then Outcome.ok 0
  else Outcome.raised { result := result }

/-!  ## Theorems -/

/-- Helper: an add always leaves the mock slot holding the added key
(either it already held it and the add failed, or it was overwritten). -/
theorem runMapOp_mockKey_add (s : MockMapState) (key value : String) :
    (runMapOp s (MapOp.add key value)).mockKey = key := by
  unfold runMapOp Map_Add
  by_cases h : s.mockKey = key
  · simp [h]
  · simp [h]

/-- Helper: an add_or_update always leaves the mock slot holding its
key. -/
theorem runMapOp_mockKey_addOrUpdate (s : MockMapState) (key value : String) :
    (runMapOp s (MapOp.addOrUpdate key value)).mockKey = key := by
  unfold runMapOp Map_AddOrUpdate
  simp

/-- Helper: a delete empties the slot exactly when it held the deleted
key. -/
theorem runMapOp_mockKey_del (s : MockMapState) (key : String) :
    (runMapOp s (MapOp.del key)).mockKey = if s.mockKey = key then "" else s.mockKey := by
  unfold runMapOp Map_Delete
  by_cases h : s.mockKey = key
  · simp [h]
  · simp [h]

/-- Helper: the slot key after folding a sequence of operations over the
mock map is the key computed directly from the sequence. -/
theorem foldl_runMapOp_mockKey (ops : List MapOp) :
    ∀ s : MockMapState, (List.foldl runMapOp s ops).mockKey = netSlotKeyFrom s.mockKey ops := by
  induction ops with
  | nil => intro s; rfl
  | cons op rest ih =>
    intro s
    cases op with
    | add key value =>
        simp only [List.foldl_cons, netSlotKeyFrom, ih, runMapOp_mockKey_add]
    | addOrUpdate key value =>
        simp only [List.foldl_cons, netSlotKeyFrom, ih, runMapOp_mockKey_addOrUpdate]
    | del key =>
        simp only [List.foldl_cons, netSlotKeyFrom, ih, runMapOp_mockKey_del]

/-- C8: properties() is a non-owning view over the message property
storage: destroying the view explicitly, letting it be deleted, or
destroying it twice never invokes the native Map_Destroy, for every
property handle. -/
theorem properties_view_destroy_never_calls_map_destroy :
    ∀ h : Nat,
      (IoTHubMap_Destroy (IoTHubMessage_Properties_view h)).calledMapDestroy = false ∧
      (IoTHubMap_dtor (IoTHubMessage_Properties_view h)).calledMapDestroy = false ∧
      (IoTHubMap_Destroy (IoTHubMap_Destroy (IoTHubMessage_Properties_view h)).obj).calledMapDestroy
        = false := by
  intro h
  exact ⟨rfl, rfl, rfl⟩

/-- C9: get_last_message_receive_time never returns a timestamp in this
build: for both the device and the module interface the native call
reports IOTHUB_CLIENT_INDEFINITE_TIME, so the wrapper always raises an
IoTHubClientError carrying INDEFINITE_TIME. -/
theorem getLastMessageReceiveTime_always_indefinite_time :
    ∀ t : CLIENT_INTERFACE_TYPE,
      GetLastMessageReceiveTime t =
        Outcome.raised { result := IOTHUB_CLIENT_RESULT.IOTHUB_CLIENT_INDEFINITE_TIME } := by
  intro t
  cases t <;> rfl

/-- C4 counterexample: get_string on the byte-bodied message built from
the buffer [104, 105] returns a NULL pointer (None), not a failure with
INVALID_TYPE, refuting the symmetric half of the claim. -/
theorem getString_on_byte_body_returns_none :
    IoTHubMessage_GetString_py (IoTHubMessage_CreateFromByteArray [104, 105])
      = Outcome.ok Option.none ∧
    IoTHubMessage_GetString_py (IoTHubMessage_CreateFromByteArray [104, 105])
      ≠ Outcome.raised { result := IOTHUB_MESSAGE_RESULT.IOTHUB_MESSAGE_INVALID_TYPE } := by
  exact ⟨rfl, by decide⟩

/-- C4 amended: reading the byte-array view of a string-bodied message
fails with INVALID_TYPE, while get_string on a byte-bodied message
returns None without failing. -/
theorem body_kind_mismatch_semantics :
    (∀ s : List Nat,
      IoTHubMessage_GetBytearray_py (IoTHubMessage_CreateFromString s)
        = Outcome.raised { result := IOTHUB_MESSAGE_RESULT.IOTHUB_MESSAGE_INVALID_TYPE }) ∧
    (∀ b : List Nat,
      IoTHubMessage_GetString_py (IoTHubMessage_CreateFromByteArray b)
        = Outcome.ok Option.none) := by
  exact ⟨fun s => rfl, fun b => rfl⟩

/-- C5 counterexample: a 129-byte buffer is truncated by the mock to its
first 128 bytes, so from_bytes followed by get_bytes does not return the
original buffer. -/
theorem from_bytes_roundtrip_truncated_at_128 :
    IoTHubMessage_GetBytearray_py
        (IoTHubMessage_CreateFromByteArray (List.replicate 129 7))
      = Outcome.ok (List.replicate 128 7) ∧
    IoTHubMessage_GetBytearray_py
        (IoTHubMessage_CreateFromByteArray (List.replicate 129 7))
      ≠ Outcome.ok (List.replicate 129 7) := by
  constructor
  · decide
  · decide

/-- C5 amended: for every non-empty byte buffer of at most 128 bytes
(MOCKMESSAGESIZE, the mock buffer capacity) the round trip from_bytes
followed by get_bytes returns exactly the original buffer. -/
theorem from_bytes_roundtrip_within_capacity (b : List Nat)
    (_hne : b ≠ []) (hlen : b.length ≤ MOCKMESSAGESIZE) :
    IoTHubMessage_GetBytearray_py (IoTHubMessage_CreateFromByteArray b)
      = Outcome.ok b := by
  unfold IoTHubMessage_GetBytearray_py IoTHubMessage_GetByteArray
    IoTHubMessage_CreateFromByteArray
  simp [List.take_of_length_le hlen]

/-- C5 witness: the round trip at the concrete three-byte buffer. -/
theorem from_bytes_roundtrip_within_capacity_witness :
    ([1, 2, 3] : List Nat) ≠ [] ∧
    ([1, 2, 3] : List Nat).length ≤ MOCKMESSAGESIZE ∧
    IoTHubMessage_GetBytearray_py (IoTHubMessage_CreateFromByteArray [1, 2, 3])
      = Outcome.ok [1, 2, 3] :=
  ⟨by decide, by decide,
   from_bytes_roundtrip_within_capacity [1, 2, 3] (by decide) (by decide)⟩

/-- C6 counterexample: after add "a" then add "b", the net effect on an
ordinary map leaves "a" present, but the single-slot mock map has
overwritten it, so contains_key "a" is false. -/
theorem mock_map_not_net_effect_of_adds :
    specContainsKey [MapOp.add "a" "1", MapOp.add "b" "2"] "a" = true ∧
    IoTHubMap_ContainsKey (runMapOps [MapOp.add "a" "1", MapOp.add "b" "2"]) "a" = false := by
  exact ⟨by decide, by decide⟩

/-- C6 amended: the mock map holds at most one key: after any sequence
of add / add_or_update / delete operations with no filter attached,
contains_key k is true exactly when the slot key computed directly from
the sequence (a successful or failed add and any add_or_update leave the
slot on their key; delete of the held key empties it) equals k; add
always fails with KEYEXISTS when the map currently contains the key and
leaves the slot unchanged; and add_or_update never fails with KEYEXISTS,
with or without a filter. -/
theorem mock_map_single_slot_semantics :
    (∀ (ops : List MapOp) (k : String),
      IoTHubMap_ContainsKey (runMapOps ops) k = decide (netSlotKeyFrom "" ops = k)) ∧
    (∀ (s : MockMapState) (k v : String),
      IoTHubMap_ContainsKey s k = true →
        Map_Add Option.none s k v = { state := s, result := MAP_RESULT.MAP_KEYEXISTS }) ∧
    (∀ (f : Option (String → String → Int)) (s : MockMapState) (k v : String),
      (Map_AddOrUpdate f s k v).result ≠ MAP_RESULT.MAP_KEYEXISTS) := by
  refine ⟨?_, ?_, ?_⟩
  · intro ops k
    unfold IoTHubMap_ContainsKey Map_ContainsKey runMapOps
    rw [foldl_runMapOp_mockKey ops Map_Create_state]
    rfl
  · intro s k v h
    have hk : s.mockKey = k := by
      have := of_decide_eq_true h
      exact this
    unfold Map_Add
    simp [hk]
  · intro f s k v
    unfold Map_AddOrUpdate
    cases f with
    | none => simp
    | some flt =>
        by_cases h : flt k v ≠ 0
        · simp [h]
        · simp [h]

/-- C6 witness: the amended statements at the concrete slot holding key
"a". -/
theorem mock_map_single_slot_semantics_witness :
    IoTHubMap_ContainsKey (runMapOps [MapOp.add "a" "1"]) "a"
      = decide (netSlotKeyFrom "" [MapOp.add "a" "1"] = "a") ∧
    IoTHubMap_ContainsKey { mockKey := "a", mockValue := "1" } "a" = true ∧
    Map_Add Option.none { mockKey := "a", mockValue := "1" } "a" "2"
      = { state := { mockKey := "a", mockValue := "1" }, result := MAP_RESULT.MAP_KEYEXISTS } ∧
    (Map_AddOrUpdate Option.none { mockKey := "a", mockValue := "1" } "a" "2").result
      ≠ MAP_RESULT.MAP_KEYEXISTS :=
  ⟨mock_map_single_slot_semantics.1 [MapOp.add "a" "1"] "a",
   by decide,
   mock_map_single_slot_semantics.2.1 { mockKey := "a", mockValue := "1" } "a" "2" (by decide),
   mock_map_single_slot_semantics.2.2 Option.none { mockKey := "a", mockValue := "1" } "a" "2"⟩

/-- C2 counterexample: with the callable filter (id 1) active as the
process-wide filter, the static Create factory called with a second
callable (id 2) succeeds with the filter attached and silently replaces
the active filter instead of failing fast with a type error. -/
theorem mapCreate_overwrites_active_filter :
    IoTHubMap_Create (PyObj.callable 1) (PyObj.callable 2)
      = (PyObj.callable 2,
         Outcome.ok { filter := false, ownHandle := true, mapHandle := Option.some 0,
                      filterAttached := true }) ∧
    (IoTHubMap_Create (PyObj.callable 1) (PyObj.callable 2)).1 ≠ PyObj.callable 1 := by
  exact ⟨rfl, by decide⟩

/-- C2 amended: with a filter already active, the IoTHubMap filter
constructor fails fast with a TypeError and leaves the active filter
unchanged, but the static Create factory silently overwrites the active
filter with the new callable and returns a map with the filter
attached. -/
theorem map_filter_registration_semantics (g f : PyObj)
    (hg : PyCallable_Check g = true) (hf : PyCallable_Check f = true) :
    IoTHubMap_ctor_filter g f = (g, Outcome.raised { message := "Filter already in use" }) ∧
    IoTHubMap_Create g f
      = (f, Outcome.ok { filter := false, ownHandle := true, mapHandle := Option.some 0,
                         filterAttached := true }) := by
  constructor
  · unfold IoTHubMap_ctor_filter
    simp [hf, hg]
  · unfold IoTHubMap_Create
    simp [hf]

/-- C2 witness: the amended statement at two concrete callables. -/
theorem map_filter_registration_semantics_witness :
    PyCallable_Check (PyObj.callable 1) = true ∧
    PyCallable_Check (PyObj.callable 2) = true ∧
    (IoTHubMap_ctor_filter (PyObj.callable 1) (PyObj.callable 2)
       = (PyObj.callable 1, Outcome.raised { message := "Filter already in use" }) ∧
     IoTHubMap_Create (PyObj.callable 1) (PyObj.callable 2)
       = (PyObj.callable 2,
          Outcome.ok { filter := false, ownHandle := true, mapHandle := Option.some 0,
                       filterAttached := true })) :=
  ⟨rfl, rfl,
   map_filter_registration_semantics (PyObj.callable 1) (PyObj.callable 2) rfl rfl⟩

/-- C3 counterexample: a set_option call with a well-typed string value
whose native call reports IOTHUB_CLIENT_ERROR returns normally with the
failure only printed to stdout, instead of failing toward the caller
with that result code. -/
theorem setOption_swallows_driver_failure :
    SetOption (PyObj.str "messageTimeout") IOTHUB_CLIENT_RESULT.IOTHUB_CLIENT_ERROR
      = SetOptionOutcome.loggedFailure IOTHUB_CLIENT_RESULT.IOTHUB_CLIENT_ERROR ∧
    SetOption (PyObj.str "messageTimeout") IOTHUB_CLIENT_RESULT.IOTHUB_CLIENT_ERROR
      ≠ SetOptionOutcome.raisedClientError IOTHUB_CLIENT_RESULT.IOTHUB_CLIENT_ERROR := by
  exact ⟨rfl, by decide⟩

/-- C3 amended: operations other than set_option propagate a non-OK
native result verbatim as an IoTHubClientError (shown for send_event_async,
get_send_status, set_retry_policy and device_method_response); set_option
raises a TypeError for a value that is neither an int nor a string, but a
non-OK native result inside set_option is only logged and the call
returns normally. -/
theorem driver_result_propagation_amended (r : IOTHUB_CLIENT_RESULT)
    (hr : r ≠ IOTHUB_CLIENT_RESULT.IOTHUB_CLIENT_OK) :
    (∀ (nextId clientHandle eventMessage cbId : Nat) (ctx : PyObj),
      (SendEventAsync nextId clientHandle eventMessage (PyObj.callable cbId) ctx r).raised
        = Option.some (BindingExc.client { result := r })) ∧
    (∀ st : IOTHUB_CLIENT_STATUS, GetSendStatus st r = Outcome.raised { result := r }) ∧
    SetRetryPolicy r = Outcome.raised { result := r } ∧
    DeviceMethodResponse r = Outcome.raised { result := r } ∧
    (∀ n : Int, SetOption (PyObj.int n) r = SetOptionOutcome.loggedFailure r) ∧
    (∀ s : String, SetOption (PyObj.str s) r = SetOptionOutcome.loggedFailure r) ∧
    (∀ id : Nat, SetOption (PyObj.callable id) r = SetOptionOutcome.raisedTypeError) := by
  refine ⟨?_, ?_, ?_, ?_, ?_, ?_, ?_⟩
  · intro nextId clientHandle eventMessage cbId ctx
    simp [SendEventAsync, PyCallable_Check, hr]
  · intro st
    simp [GetSendStatus, hr]
  · simp [SetRetryPolicy, hr]
  · simp [DeviceMethodResponse, hr]
  · intro n
    simp [SetOption, hr]
  · intro s
    simp [SetOption, hr]
  · intro id
    rfl

/-- C3 witness: the amended statement instantiated at the native result
IOTHUB_CLIENT_ERROR. -/
theorem driver_result_propagation_amended_witness :
    IOTHUB_CLIENT_RESULT.IOTHUB_CLIENT_ERROR ≠ IOTHUB_CLIENT_RESULT.IOTHUB_CLIENT_OK ∧
    SetOption (PyObj.int 1) IOTHUB_CLIENT_RESULT.IOTHUB_CLIENT_ERROR
      = SetOptionOutcome.loggedFailure IOTHUB_CLIENT_RESULT.IOTHUB_CLIENT_ERROR ∧
    GetSendStatus IOTHUB_CLIENT_STATUS.IDLE IOTHUB_CLIENT_RESULT.IOTHUB_CLIENT_ERROR
      = Outcome.raised { result := IOTHUB_CLIENT_RESULT.IOTHUB_CLIENT_ERROR } :=
  ⟨by decide,
   (driver_result_propagation_amended IOTHUB_CLIENT_RESULT.IOTHUB_CLIENT_ERROR
      (by decide)).2.2.2.2.1 1,
   (driver_result_propagation_amended IOTHUB_CLIENT_RESULT.IOTHUB_CLIENT_ERROR
      (by decide)).2.1 IOTHUB_CLIENT_STATUS.IDLE⟩

/-- C1 counterexample: at the concrete send with the original message
object 0, fresh object id 1 and a callable callback, the clone allocated
is object 1 but the native send is invoked with the original message 0:
the clone is not what is handed to the driver for transmission. -/
theorem sendEventAsync_driver_gets_original_not_clone :
    (SendEventAsync 1 42 0 (PyObj.callable 5) (PyObj.int 7)
        IOTHUB_CLIENT_RESULT.IOTHUB_CLIENT_OK).clonedMessage = Option.some 1 ∧
    Option.map SendEventCall.messageArg
        (SendEventAsync 1 42 0 (PyObj.callable 5) (PyObj.int 7)
          IOTHUB_CLIENT_RESULT.IOTHUB_CLIENT_OK).driverCall = Option.some 0 ∧
    Option.map SendEventCall.messageArg
        (SendEventAsync 1 42 0 (PyObj.callable 5) (PyObj.int 7)
          IOTHUB_CLIENT_RESULT.IOTHUB_CLIENT_OK).driverCall
      ≠ (SendEventAsync 1 42 0 (PyObj.callable 5) (PyObj.int 7)
          IOTHUB_CLIENT_RESULT.IOTHUB_CLIENT_OK).clonedMessage := by
  refine ⟨rfl, rfl, by decide⟩

/-- C1 amended: send_event_async with a callable callback clones the
message into the pending context (the caller's original is neither
destroyed nor released), hands the ORIGINAL message handle together with
the client handle to the native send, and raises nothing when the send
is accepted; when the driver later reports the terminal result OK the
completion callback is invoked exactly once with the echoed clone, OK
and the user context, after which the context and the clone — not the
original — are released. -/
theorem sendEventAsync_clone_retained_and_completion_once
    (nextId clientHandle eventMessage : Nat) (cb ctx : PyObj)
    (hcb : PyCallable_Check cb = true) (hfresh : eventMessage < nextId) :
    SendEventAsync nextId clientHandle eventMessage cb ctx
        IOTHUB_CLIENT_RESULT.IOTHUB_CLIENT_OK
      = { nextId := nextId + 1,
          clonedMessage := Option.some nextId,
          driverCall := Option.some
            { clientHandleArg := clientHandle, messageArg := eventMessage,
              contextArg := { messageCallback := cb, userContext := ctx,
                              eventMessage := nextId } },
          raised := Option.none } ∧
    nextId ≠ eventMessage ∧
    SendConfirmationCallback IOTHUB_CLIENT_CONFIRMATION_RESULT.CONFIRMATION_OK
        { messageCallback := cb, userContext := ctx, eventMessage := nextId } false
      = { invocations := [(nextId, IOTHUB_CLIENT_CONFIRMATION_RESULT.CONFIRMATION_OK, ctx)],
          printedTraceback := false, freedContext := true,
          freedMessage := Option.some nextId } := by
  refine ⟨?_, ?_, rfl⟩
  · simp [SendEventAsync, hcb]
  · omega

/-- C1 witness: the amended statement at the concrete send used in the
counterexample. -/
theorem sendEventAsync_clone_retained_witness :
    PyCallable_Check (PyObj.callable 5) = true ∧ (0 : Nat) < 1 ∧
    (SendEventAsync 1 42 0 (PyObj.callable 5) (PyObj.int 7)
        IOTHUB_CLIENT_RESULT.IOTHUB_CLIENT_OK
      = { nextId := 2,
          clonedMessage := Option.some 1,
          driverCall := Option.some
            { clientHandleArg := 42, messageArg := 0,
              contextArg := { messageCallback := PyObj.callable 5,
                              userContext := PyObj.int 7, eventMessage := 1 } },
          raised := Option.none } ∧
     (1 : Nat) ≠ 0 ∧
     SendConfirmationCallback IOTHUB_CLIENT_CONFIRMATION_RESULT.CONFIRMATION_OK
        { messageCallback := PyObj.callable 5, userContext := PyObj.int 7,
          eventMessage := 1 } false
      = { invocations := [(1, IOTHUB_CLIENT_CONFIRMATION_RESULT.CONFIRMATION_OK, PyObj.int 7)],
          printedTraceback := false, freedContext := true,
          freedMessage := Option.some 1 }) :=
  ⟨rfl, by decide,
   sendEventAsync_clone_retained_and_completion_once 1 42 0 (PyObj.callable 5)
     (PyObj.int 7) rfl (by decide)⟩

/-- C7: evaluated at the failing input, the map-filter trampoline whose
user filter raises prints the traceback, but then extracts an int from
the default None return object outside the protected region, so a
Python error escapes across the extern C boundary into the native
caller instead of a well-defined int being returned to the driver. -/
theorem mapFilterCallback_exception_escapes_to_driver :
    MapFilterCallback (fun _ _ => Outcome.raised { message := "user callback raised" })
        "property" "value"
      = { printedTraceback := true,
          returned := Outcome.raised { message := "extract int failed" } } := rfl

/-- C10: if the registered device-method callback raises, or returns
anything that is not a DeviceMethodReturnValue, both the immediate and
the deferred method trampolines report status -1 to the driver, print
the traceback, and produce no response payload. -/
theorem deviceMethodCallback_bad_user_result_reports_minus_one
    (cb : String → String → PyObj → PyCall)
    (cbEx : String → String → Nat → PyObj → PyCall)
    (name payload : String) (mid : Nat) (ctx : PyObj)
    (h1 : ∀ resp status, cb name payload ctx ≠ Outcome.ok (PyObj.dmrv resp status))
    (h2 : ∀ resp status, cbEx name payload mid ctx ≠ Outcome.ok (PyObj.dmrv resp status)) :
    DeviceMethodCallback cb name payload ctx
      = { retVal := -1, response := Option.none, printedTraceback := true } ∧
    InboundDeviceMethodCallback cbEx name payload mid ctx
      = { retVal := -1, printedTraceback := true } := by
  constructor
  · unfold DeviceMethodCallback
    cases hc : cb name payload ctx with
    | raised e => rfl
    | ok o =>
        cases o with
        | none => rfl
        | callable id => rfl
        | int n => rfl
        | str s => rfl
        | other id => rfl
        | dmrv resp status => exact absurd hc (h1 resp status)
  · unfold InboundDeviceMethodCallback
    cases hc : cbEx name payload mid ctx with
    | raised e => rfl
    | ok o =>
        cases o with
        | none => rfl
        | callable id => rfl
        | int n => rfl
        | str s => rfl
        | other id => rfl
        | dmrv resp status => exact absurd hc (h2 resp status)

/-- C10 witness: a user callback that raises and a deferred callback
that returns a plain string. -/
theorem deviceMethodCallback_bad_user_result_witness :
    DeviceMethodCallback (fun _ _ _ => Outcome.raised { message := "boom" }) "m" "p" PyObj.none
      = { retVal := -1, response := Option.none, printedTraceback := true } ∧
    InboundDeviceMethodCallback (fun _ _ _ _ => Outcome.ok (PyObj.str "oops")) "m" "p" 3 PyObj.none
      = { retVal := -1, printedTraceback := true } :=
  deviceMethodCallback_bad_user_result_reports_minus_one
    (fun _ _ _ => Outcome.raised { message := "boom" })
    (fun _ _ _ _ => Outcome.ok (PyObj.str "oops")) "m" "p" 3 PyObj.none
    (fun _ _ h => by simp at h)
    (fun _ _ h => PyObj.noConfusion (Outcome.ok.inj h))

end AzureIoT
